import Mathlib

/-!
Verification of the frame-rendering engine core (GPU buffer sizing, layout
transitions, mipmap generation, swapchain creation and extent selection, and
the per-frame renderer state machine) against its natural-language
specification.  Each definition is a shallow embedding of the corresponding
C++ function; machine integers are modelled as `Nat` with explicit reduction
modulo `2 ^ 64` where 64-bit overflow matters.
-/

set_option autoImplicit false

namespace VulkEng

/-- Modulus of 64-bit unsigned arithmetic (`VkDeviceSize`). -/
def u64Cap : Nat := 2 ^ 64

/-- Embeds `VulkanBuffer::CalculateAlignment` (src/graphics/Buffer.cpp):
`(instanceSize + minOffsetAlignment - 1) & ~(minOffsetAlignment - 1)` on
64-bit unsigned values; returns `instanceSize` when the alignment is zero.
The bitwise complement of `minOffsetAlignment - 1` within 64 bits is
`2 ^ 64 - 1 - (minOffsetAlignment - 1)`. -/
def CalculateAlignment (instanceSize minOffsetAlignment : Nat) : Nat :=
  if 0 < minOffsetAlignment then
    ((instanceSize + minOffsetAlignment - 1) % u64Cap) &&&
      (u64Cap - 1 - (minOffsetAlignment - 1) % u64Cap)
  else
    instanceSize

/-- Observable result of running the `VulkanBuffer` constructor. -/
structure BufferInitState where
  bufferSize : Nat
  alignmentSize : Nat
  bufferIsNull : Bool
  memoryIsNull : Bool
  allocationAttempted : Bool
  errorLogged : Bool
deriving DecidableEq

/-- Embeds the `VulkanBuffer` constructor (src/graphics/Buffer.cpp).
A zero instance count or size logs an error and returns early with zero
sizes and null handles; a null device throws; otherwise the aligned stride
and total size are computed and the allocation proceeds. -/
def VulkanBufferInit (instanceSize instanceCount minOffsetAlignment : Nat)
    (deviceIsNull : Bool) : Except String BufferInitState :=
  if instanceCount = 0 ∨ instanceSize = 0 then
    Except.ok { bufferSize := 0, alignmentSize := 0, bufferIsNull := true,
                memoryIsNull := true, allocationAttempted := false,
                errorLogged := true }
  else if deviceIsNull then
    Except.error "Null device for VulkanBuffer creation."
  else
    Except.ok { bufferSize := CalculateAlignment instanceSize minOffsetAlignment *
                  instanceCount % u64Cap,
                alignmentSize := CalculateAlignment instanceSize minOffsetAlignment,
                bufferIsNull := false, memoryIsNull := false,
                allocationAttempted := true, errorLogged := false }

/-- Clearing the low `k` bits of `x < 2 ^ 64` (bitwise and with the 64-bit
complement of `2 ^ k - 1`) rounds `x` down to a multiple of `2 ^ k`. -/
theorem land_high_mask (x k : Nat) (hk : k ≤ 64) (hx : x < 2 ^ 64) :
    x &&& (2 ^ 64 - 1 - (2 ^ k - 1)) = x / 2 ^ k * 2 ^ k := by
  have hkpow : (2 : Nat) ^ k ≤ 2 ^ 64 := Nat.pow_le_pow_right (by norm_num) hk
  have hmul : (2 : Nat) ^ k * 2 ^ (64 - k) = 2 ^ 64 := by
    rw [← pow_add]
    congr 1
    omega
  have hkpos : 0 < (2 : Nat) ^ k := Nat.pos_pow_of_pos k (by norm_num)
  have hp : 0 < (2 : Nat) ^ (64 - k) := Nat.pos_pow_of_pos _ (by norm_num)
  have hsplit : 2 ^ k * (2 ^ (64 - k) - 1) + 2 ^ k = 2 ^ 64 := by
    have h1 : 2 ^ (64 - k) - 1 + 1 = 2 ^ (64 - k) := Nat.succ_pred_eq_of_pos hp
    calc 2 ^ k * (2 ^ (64 - k) - 1) + 2 ^ k
        = 2 ^ k * (2 ^ (64 - k) - 1 + 1) := by ring
      _ = 2 ^ 64 := by rw [h1, hmul]
  have hmask : 2 ^ 64 - 1 - (2 ^ k - 1) = 2 ^ k * (2 ^ (64 - k) - 1) := by
    omega
  rw [hmask, Nat.mul_comm (x / 2 ^ k) (2 ^ k)]
  apply Nat.eq_of_testBit_eq
  intro i
  rw [Nat.testBit_and, Nat.testBit_mul_pow_two, Nat.testBit_mul_pow_two]
  rcases Nat.lt_or_ge i k with hik | hik
  · simp [Nat.not_le_of_lt hik]
  · have hdiv : Nat.testBit (x / 2 ^ k) (i - k) = Nat.testBit x i := by
      rw [← Nat.shiftRight_eq_div_pow, Nat.testBit_shiftRight]
      congr 1
      omega
    rcases Nat.lt_or_ge i 64 with hi64 | hi64
    · have hlow : i - k < 64 - k := by omega
      simp [hik, hdiv, Nat.testBit_two_pow_sub_one, hlow]
    · have hxi : Nat.testBit x i = false := by
        apply Nat.testBit_lt_two_pow
        exact lt_of_lt_of_le hx (Nat.pow_le_pow_right (by norm_num) hi64)
      have hhigh : ¬(i - k < 64 - k) := by omega
      simp [hik, hdiv, hxi, Nat.testBit_two_pow_sub_one, hhigh]

/-- For a power-of-two alignment the masked expression agrees with the
round-up-then-multiply formula `ceil(S / A) * A = ((S + A - 1) / A) * A`. -/
theorem calculateAlignment_pow_two (S k : Nat) (hk : k < 64)
    (hfit : S + 2 ^ k - 1 < u64Cap) :
    CalculateAlignment S (2 ^ k) = (S + 2 ^ k - 1) / 2 ^ k * 2 ^ k := by
  have hkpos : 0 < (2 : Nat) ^ k := Nat.pos_pow_of_pos k (by norm_num)
  have hsub : (2 : Nat) ^ k - 1 < u64Cap := by
    have : (2 : Nat) ^ k ≤ 2 ^ 64 := Nat.pow_le_pow_right (by norm_num) (le_of_lt hk)
    simp only [u64Cap]
    omega
  unfold CalculateAlignment
  rw [if_pos hkpos, Nat.mod_eq_of_lt hfit, Nat.mod_eq_of_lt hsub]
  exact land_high_mask _ k (le_of_lt hk) hfit

/-- C1 (counterexample): with element size 4, count 1 and alignment 3 the
constructor computes a total size of 4, while `ceil(4/3)*3*1 = 6`: the
bit-mask alignment formula does not realise `ceil(S/A)*A` for a
non-power-of-two alignment. -/
theorem bufferSize_ceil_fails_nonpow2 :
    VulkanBufferInit 4 1 3 false =
      Except.ok { bufferSize := 4, alignmentSize := 4, bufferIsNull := false,
                  memoryIsNull := false, allocationAttempted := true,
                  errorLogged := false } ∧
    (4 : Nat) ≠ (4 + 3 - 1) / 3 * 3 * 1 := by
  refine ⟨?_, by decide⟩
  rfl

/-- C1 (amended): for every element size `S > 0`, count `C > 0` and
power-of-two alignment `A = 2 ^ k` (the only alignments Vulkan reports),
absent 64-bit overflow, the constructed buffer's total size equals
`ceil(S/A)*A*C`, the aligned stride times the count. -/
theorem bufferSize_eq_ceil_stride_mul_count (S C k : Nat)
    (hS : 0 < S) (hC : 0 < C) (hk : k < 64)
    (hfit : S + 2 ^ k - 1 < u64Cap)
    (htot : (S + 2 ^ k - 1) / 2 ^ k * 2 ^ k * C < u64Cap) :
    VulkanBufferInit S C (2 ^ k) false =
      Except.ok { bufferSize := (S + 2 ^ k - 1) / 2 ^ k * 2 ^ k * C,
                  alignmentSize := (S + 2 ^ k - 1) / 2 ^ k * 2 ^ k,
                  bufferIsNull := false, memoryIsNull := false,
                  allocationAttempted := true, errorLogged := false } := by
  unfold VulkanBufferInit
  rw [if_neg (by omega), if_neg (by simp)]
  rw [calculateAlignment_pow_two S k hk hfit, Nat.mod_eq_of_lt htot]

/-- Witness for C1's amended theorem at `S = 5`, `C = 2`, `A = 2 ^ 2`. -/
theorem bufferSize_eq_ceil_stride_mul_count_witness :
    VulkanBufferInit 5 2 (2 ^ 2) false =
      Except.ok { bufferSize := (5 + 2 ^ 2 - 1) / 2 ^ 2 * 2 ^ 2 * 2,
                  alignmentSize := (5 + 2 ^ 2 - 1) / 2 ^ 2 * 2 ^ 2,
                  bufferIsNull := false, memoryIsNull := false,
                  allocationAttempted := true, errorLogged := false } :=
  bufferSize_eq_ceil_stride_mul_count 5 2 2 (by decide) (by decide) (by decide)
    (by decide) (by decide)

/-- C10: constructing a buffer with zero element count or zero element size
does not throw: the constructor logs an error and returns normally with
total size 0, aligned stride 0, null buffer and memory handles, and no
allocation attempted. -/
theorem bufferInit_zero_returns_normally
    (instanceSize instanceCount minOffsetAlignment : Nat) (deviceIsNull : Bool)
    (h : instanceCount = 0 ∨ instanceSize = 0) :
    VulkanBufferInit instanceSize instanceCount minOffsetAlignment deviceIsNull =
      Except.ok { bufferSize := 0, alignmentSize := 0, bufferIsNull := true,
                  memoryIsNull := true, allocationAttempted := false,
                  errorLogged := true } := by
  unfold VulkanBufferInit
  rw [if_pos h]

/-- Witness for C10 at element size 16, count 0, with a live device. -/
theorem bufferInit_zero_returns_normally_witness :
    VulkanBufferInit 16 0 1 false =
      Except.ok { bufferSize := 0, alignmentSize := 0, bufferIsNull := true,
                  memoryIsNull := true, allocationAttempted := false,
                  errorLogged := true } :=
  bufferInit_zero_returns_normally 16 0 1 false (Or.inl rfl)

/-! ### Image layout transitions (src/graphics/VulkanUtils.cpp) -/

/-- The image layouts appearing in the engine (a representative slice of
`VkImageLayout`, including layouts outside the transition table). -/
inductive VkImageLayout where
  | undefined
  | general
  | colorAttachmentOptimal
  | depthStencilAttachmentOptimal
  | shaderReadOnlyOptimal
  | transferSrcOptimal
  | transferDstOptimal
  | presentSrcKHR
deriving DecidableEq

/-- Access-mask and pipeline-stage selection recorded into the image memory
barrier by `Utils::TransitionImageLayout`.  Numeric values are the concrete
Vulkan flag bits. -/
structure BarrierMasks where
  srcAccessMask : Nat
  dstAccessMask : Nat
  sourceStage : Nat
  destinationStage : Nat
deriving DecidableEq

/-- Embeds the cascading-conditional transition table of
`Utils::TransitionImageLayout` (src/graphics/VulkanUtils.cpp:249-278).
`none` models the `throw std::invalid_argument` branch for every pair
outside the closed table. -/
def TransitionImageLayoutMasks (oldLayout newLayout : VkImageLayout) :
    Option BarrierMasks :=
  if oldLayout = .undefined ∧ newLayout = .transferDstOptimal then
    some { srcAccessMask := 0, dstAccessMask := 0x1000,
           sourceStage := 0x1, destinationStage := 0x1000 }
  else if oldLayout = .transferDstOptimal ∧ newLayout = .shaderReadOnlyOptimal then
    some { srcAccessMask := 0x1000, dstAccessMask := 0x20,
           sourceStage := 0x1000, destinationStage := 0x80 }
  else if oldLayout = .undefined ∧ newLayout = .depthStencilAttachmentOptimal then
    some { srcAccessMask := 0, dstAccessMask := 0x200 ||| 0x400,
           sourceStage := 0x1, destinationStage := 0x100 }
  else if oldLayout = .transferDstOptimal ∧ newLayout = .transferSrcOptimal then
    some { srcAccessMask := 0x1000, dstAccessMask := 0x800,
           sourceStage := 0x1000, destinationStage := 0x1000 }
  else if oldLayout = .transferSrcOptimal ∧ newLayout = .shaderReadOnlyOptimal then
    some { srcAccessMask := 0x800, dstAccessMask := 0x20,
           sourceStage := 0x1000, destinationStage := 0x80 }
  else
    none

/-- C2: the layout-transition table accepts exactly its five enumerated
pairs — each with its own access-mask/stage selection — and fails fatally
(models the thrown `std::invalid_argument`) on every other pair. -/
theorem transition_table_exactly_five (oldLayout newLayout : VkImageLayout) :
    ((TransitionImageLayoutMasks oldLayout newLayout).isSome = true ↔
      ((oldLayout = .undefined ∧ newLayout = .transferDstOptimal) ∨
       (oldLayout = .transferDstOptimal ∧ newLayout = .shaderReadOnlyOptimal) ∨
       (oldLayout = .undefined ∧ newLayout = .depthStencilAttachmentOptimal) ∨
       (oldLayout = .transferDstOptimal ∧ newLayout = .transferSrcOptimal) ∨
       (oldLayout = .transferSrcOptimal ∧ newLayout = .shaderReadOnlyOptimal))) := by
  cases oldLayout <;> cases newLayout <;> decide

/-! ### Mipmap generation (src/graphics/VulkanUtils.cpp) -/

/-- One GPU command recorded by `Utils::GenerateMipmaps`: a pipeline
barrier over a mip sub-range, or a blit between two mip levels. -/
inductive MipCmd where
  | barrier (baseMipLevel levelCount : Nat) (oldLayout newLayout : VkImageLayout)
  | blit (srcMipLevel dstMipLevel srcWidth srcHeight dstWidth dstHeight : Nat)
deriving DecidableEq

/-- The half-resolution rule of the blit: `n > 1 ? n / 2 : 1`. -/
def mipHalf (n : Nat) : Nat := if 1 < n then n / 2 else 1

/-- The blit loop `for (i = 1; i < mipLevels; i++)` of
`Utils::GenerateMipmaps`, with the remaining iteration count as fuel:
transition level `lvl - 1` to transfer-src, level `lvl` (undefined) to
transfer-dst, blit at half resolution, halve the working dimensions. -/
def GenerateMipmapsLoop (lvl mipWidth mipHeight : Nat) : Nat → List MipCmd
  | 0 => []
  | remaining + 1 =>
      MipCmd.barrier (lvl - 1) 1 .transferDstOptimal .transferSrcOptimal ::
      MipCmd.barrier lvl 1 .undefined .transferDstOptimal ::
      MipCmd.blit (lvl - 1) lvl mipWidth mipHeight (mipHalf mipWidth) (mipHalf mipHeight) ::
      GenerateMipmapsLoop (lvl + 1) (mipHalf mipWidth) (mipHalf mipHeight) remaining

/-- Embeds `Utils::GenerateMipmaps` (src/graphics/VulkanUtils.cpp:339-481)
as the list of commands it records.  `mipLevels ≤ 1` returns immediately;
a format without blit SRC/DST support logs an error and returns with no
commands recorded; a format without linear-filter support only logs a
warning and proceeds; otherwise the blit chain runs and all levels are
transitioned to shader-read-only. -/
def GenerateMipmaps (filterLinearSupport blitSrcSupport blitDstSupport : Bool)
    (texWidth texHeight mipLevels : Nat) : List MipCmd :=
  if mipLevels ≤ 1 then []
  else if ¬blitSrcSupport ∨ ¬blitDstSupport then []
  else
    GenerateMipmapsLoop 1 texWidth texHeight (mipLevels - 1) ++
      [MipCmd.barrier 0 (mipLevels - 1) .transferSrcOptimal .shaderReadOnlyOptimal,
       MipCmd.barrier (mipLevels - 1) 1 .transferDstOptimal .shaderReadOnlyOptimal]

/-- C3 (counterexample): for a format that lacks linear-blit filtering
support but does support blit SRC/DST, `GenerateMipmaps` with 2 levels
does NOT refuse — it records the full blit chain (the missing linear
filter only produces a warning). -/
theorem generateMipmaps_proceeds_without_linear_filter :
    GenerateMipmaps false true true 4 4 2 ≠ [] := by
  decide

/-- C3 (amended): with more than one requested level, `GenerateMipmaps`
refuses and records no commands exactly when the format lacks blit SRC or
blit DST support; missing linear-filter support alone only warns, and
generation proceeds. -/
theorem generateMipmaps_refusal_characterization
    (filterLinearSupport blitSrcSupport blitDstSupport : Bool)
    (texWidth texHeight mipLevels : Nat) (h : 1 < mipLevels) :
    (GenerateMipmaps filterLinearSupport blitSrcSupport blitDstSupport
        texWidth texHeight mipLevels = [] ↔
      (blitSrcSupport = false ∨ blitDstSupport = false)) := by
  unfold GenerateMipmaps
  rw [if_neg (by omega)]
  by_cases hs : blitSrcSupport = false
  · simp [hs]
  · by_cases hd : blitDstSupport = false
    · simp [hs, hd]
    · obtain ⟨r, hr⟩ : ∃ r, mipLevels - 1 = r + 1 := ⟨mipLevels - 2, by omega⟩
      rw [if_neg (by simp [hs, hd]), hr]
      simp [GenerateMipmapsLoop, hs, hd]

/-- Witness for C3's amended theorem at 3 mip levels, 8×8, blit support
present but linear filtering absent. -/
theorem generateMipmaps_refusal_characterization_witness :
    (GenerateMipmaps false true true 8 8 3 = [] ↔ (true = false ∨ true = false)) :=
  generateMipmaps_refusal_characterization false true true 8 8 3 (by decide)

/-! ### Frame renderer state machine (src/graphics/Renderer.cpp) -/

/-- `MAX_FRAMES_IN_FLIGHT` (src/graphics/Renderer.h:28). -/
def maxFramesInFlight : Nat := 2

/-- The acquire/present result values the renderer branches on. -/
inductive VkResultCode where
  | success
  | suboptimalKHR
  | errorOutOfDateKHR
  | errorOther
deriving DecidableEq

/-- The renderer state the per-frame calls read and write. -/
structure RenderState where
  currentFrameIndex : Nat
  currentImageIndex : Nat
  framebufferResized : Bool
deriving DecidableEq

/-- Renderer state after the constructor (src/graphics/Renderer.cpp:34). -/
def initialRenderState : RenderState :=
  { currentFrameIndex := 0, currentImageIndex := 0, framebufferResized := false }

/-- The swapchain facts `BeginFrame` interacts with. -/
structure SwapchainInfo where
  handleIsNull : Bool
  imageCount : Nat
deriving DecidableEq

/-- External calls the renderer issues, in program order. -/
inductive RenderCall where
  | waitForFences (slot : Nat)
  | acquireNextImage (swapchainIsNull : Bool) (slot : Nat)
  | recreateSwapchain
  | resetFences (slot : Nat)
  | beginCommandBuffer (slot : Nat)
  | endCommandBuffer (slot : Nat)
  | queueSubmit (slot : Nat)
  | queuePresent (imageIndex : Nat)
deriving DecidableEq

/-- Control-flow outcome of a renderer call: a normal return carrying the
boolean result, or a thrown `std::runtime_error`. -/
inductive FrameOutcome where
  | proceed (canRender : Bool)
  | thrown (msg : String)
deriving DecidableEq

/-- Result of one renderer call: successor state, the external calls it
issued, and how it returned. -/
structure RenderStep where
  state : RenderState
  calls : List RenderCall
  outcome : FrameOutcome

/-- Embeds `Renderer::HandleResize` (src/graphics/Renderer.cpp:201-203):
it sets the dirty flag and touches nothing else. -/
def HandleResize (s : RenderState) : RenderState :=
  { s with framebufferResized := true }

/-- Embeds `Renderer::BeginFrame` (src/graphics/Renderer.cpp:205-228).
The fence wait and the acquire call happen unconditionally; an
out-of-date acquire triggers `RecreateSwapchain` (which clears the dirty
flag) and returns false; any other acquire failure throws; a suboptimal
acquire sets the dirty flag and proceeds.  The acquire result and image
index, and whether the command-buffer begin succeeds, are the external
environment's inputs. -/
def BeginFrame (s : RenderState) (sc : SwapchainInfo)
    (acquireResult : VkResultCode) (acquiredImage : Nat) (cmdBeginOk : Bool) :
    RenderStep :=
  let calls0 := [RenderCall.waitForFences s.currentFrameIndex,
                 RenderCall.acquireNextImage sc.handleIsNull s.currentFrameIndex]
  match acquireResult with
  | .errorOutOfDateKHR =>
      { state := { s with framebufferResized := false },
        calls := calls0 ++ [RenderCall.recreateSwapchain],
        outcome := .proceed false }
  | .errorOther =>
      { state := s, calls := calls0,
        outcome := .thrown "Failed to acquire swap chain image!" }
  | .suboptimalKHR =>
      { state := { s with framebufferResized := true,
                          currentImageIndex := acquiredImage },
        calls := calls0 ++ [RenderCall.resetFences s.currentFrameIndex,
                            RenderCall.beginCommandBuffer s.currentFrameIndex],
        outcome := .proceed cmdBeginOk }
  | .success =>
      { state := { s with currentImageIndex := acquiredImage },
        calls := calls0 ++ [RenderCall.resetFences s.currentFrameIndex,
                            RenderCall.beginCommandBuffer s.currentFrameIndex],
        outcome := .proceed cmdBeginOk }

/-- Embeds `Renderer::EndFrameAndPresent` (src/graphics/Renderer.cpp:299-338).
It submits and presents; on a stale/suboptimal present result or an already
flagged resize it only (re)marks the dirty flag — recreation itself is
deferred; any other present failure throws before the index advances;
otherwise the frame-slot index advances modulo `maxFramesInFlight`. -/
def EndFrameAndPresent (s : RenderState) (presentResult : VkResultCode) :
    RenderStep :=
  let calls0 := [RenderCall.endCommandBuffer s.currentFrameIndex,
                 RenderCall.queueSubmit s.currentFrameIndex,
                 RenderCall.queuePresent s.currentImageIndex]
  if presentResult = .errorOutOfDateKHR ∨ presentResult = .suboptimalKHR ∨
      s.framebufferResized then
    { state := { s with framebufferResized := true,
                        currentFrameIndex :=
                          (s.currentFrameIndex + 1) % maxFramesInFlight },
      calls := calls0, outcome := .proceed true }
  else if presentResult ≠ .success then
    { state := s, calls := calls0,
      outcome := .thrown "Failed to present swap chain image!" }
  else
    { state := { s with currentFrameIndex :=
                          (s.currentFrameIndex + 1) % maxFramesInFlight },
      calls := calls0, outcome := .proceed true }

/-- One completed BeginFrame/RecordCommands/EndFrameAndPresent cycle with no
resize: the acquire and the present both report success. -/
def FrameCycle (s : RenderState) (sc : SwapchainInfo) (acquiredImage : Nat) :
    RenderState :=
  (EndFrameAndPresent (BeginFrame s sc .success acquiredImage true).state
    .success).state

/-- The renderer state after `k` completed no-resize frame cycles from the
freshly constructed state. -/
def cyclesFromStart (sc : SwapchainInfo) (acquiredImage : Nat) : Nat → RenderState
  | 0 => initialRenderState
  | k + 1 => FrameCycle (cyclesFromStart sc acquiredImage k) sc acquiredImage

/-- A no-resize cycle advances the frame-slot index by exactly one modulo
`maxFramesInFlight` and preserves a clear dirty flag. -/
theorem frameCycle_step (s : RenderState) (sc : SwapchainInfo) (img : Nat)
    (hflag : s.framebufferResized = false) :
    (FrameCycle s sc img).currentFrameIndex =
      (s.currentFrameIndex + 1) % maxFramesInFlight ∧
    (FrameCycle s sc img).framebufferResized = false := by
  unfold FrameCycle BeginFrame EndFrameAndPresent
  simp [hflag]

/-- C4: starting from frame-slot index 0, over any number of completed
no-resize cycles the slot index equals the cycle count modulo
`maxFramesInFlight`, each cycle advancing it from `i` to `(i+1) mod N`,
so it never exceeds `N - 1`. -/
theorem frame_slot_round_robin (sc : SwapchainInfo) (img k : Nat) :
    (cyclesFromStart sc img k).currentFrameIndex = k % maxFramesInFlight ∧
    (cyclesFromStart sc img k).currentFrameIndex < maxFramesInFlight := by
  have key : ∀ n, (cyclesFromStart sc img n).currentFrameIndex =
      n % maxFramesInFlight ∧
      (cyclesFromStart sc img n).framebufferResized = false := by
    intro n
    induction n with
    | zero => exact ⟨rfl, rfl⟩
    | succ m ih =>
        obtain ⟨hidx, hflag⟩ := ih
        obtain ⟨hstep, hstepflag⟩ :=
          frameCycle_step (cyclesFromStart sc img m) sc img hflag
        refine ⟨?_, hstepflag⟩
        rw [show cyclesFromStart sc img (m + 1) =
              FrameCycle (cyclesFromStart sc img m) sc img from rfl,
            hstep, hidx]
        simp only [maxFramesInFlight]
        omega
  exact ⟨(key k).1, by
    rw [(key k).1]
    exact Nat.mod_lt _ (by decide)⟩

/-- C5 (code evaluated at the failing input): after a resize notification —
which does set the dirty flag and nothing else — the next `BeginFrame`
whose acquire reports plain success performs NO swapchain rebuild, does
not consult or clear the dirty flag, and proceeds with the frame.  The
dirty flag is never read inside `BeginFrame`; only an out-of-date
acquire result triggers `RecreateSwapchain`, contradicting both the
claim and the code's own comment at `EndFrameAndPresent`
("Ensure flag is set for next BeginFrame to handle"). -/
theorem beginFrame_ignores_resize_flag :
    HandleResize initialRenderState =
      { currentFrameIndex := 0, currentImageIndex := 0,
        framebufferResized := true } ∧
    (BeginFrame (HandleResize initialRenderState)
        { handleIsNull := false, imageCount := 3 } .success 1 true).outcome =
      .proceed true ∧
    RenderCall.recreateSwapchain ∉
      (BeginFrame (HandleResize initialRenderState)
        { handleIsNull := false, imageCount := 3 } .success 1 true).calls ∧
    (BeginFrame (HandleResize initialRenderState)
        { handleIsNull := false, imageCount := 3 } .success 1 true).state.framebufferResized
      = true := by
  refine ⟨rfl, rfl, ?_, rfl⟩
  decide

/-- C8 (code evaluated at the failing input): with a headless swapchain
(null handle, zero images) `Renderer::BeginFrame` contains no guard: it
unconditionally issues the `vkAcquireNextImageKHR` call on the null
swapchain handle (invalid API usage) whatever the environment then
reports, instead of reporting skip/failure up front; and when the
acquire reports plain success it even proceeds with the frame. -/
theorem beginFrame_headless_still_acquires :
    (∀ (r : VkResultCode) (img : Nat) (cmdOk : Bool),
      RenderCall.acquireNextImage true 0 ∈
        (BeginFrame initialRenderState { handleIsNull := true, imageCount := 0 }
          r img cmdOk).calls) ∧
    (BeginFrame initialRenderState { handleIsNull := true, imageCount := 0 }
        .success 0 true).outcome = .proceed true := by
  refine ⟨?_, rfl⟩
  intro r img cmdOk
  cases r <;> simp [BeginFrame, initialRenderState]

/-! ### Command recording over the renderable list (src/graphics/Renderer.cpp) -/

/-- The GPU-facing facts of a mesh reference a renderable carries. -/
structure MeshRef where
  hasVertexBuffer : Bool
  hasIndexBuffer : Bool
  materialSetIsNull : Bool
  indexCount : Nat
deriving DecidableEq

/-- A renderable record: an optional mesh reference and whether the
transform reference is non-null. -/
structure RenderObjectInfo where
  mesh : Option MeshRef
  hasTransform : Bool
deriving DecidableEq

/-- The skip test of the renderable loop
(src/graphics/Renderer.cpp:272): the renderable survives only when the
mesh, transform, vertex-buffer and index-buffer references are all
non-null. -/
def handlesComplete (r : RenderObjectInfo) : Bool :=
  match r.mesh with
  | none => false
  | some m => r.hasTransform && m.hasVertexBuffer && m.hasIndexBuffer

/-- Whether the renderable's material descriptor set is absent (null). -/
def materialSetAbsent (r : RenderObjectInfo) : Bool :=
  match r.mesh with
  | none => false
  | some m => m.materialSetIsNull

/-- Embeds the renderable loop of `Renderer::RecordCommands`
(src/graphics/Renderer.cpp:271-291).  `warned` is the static once-flag of
`VKENG_WARN_ONCE` at the null-material call site.  Returns the drawn
renderables in order, the number of warnings logged, and the updated
once-flag.  A null material set only warns (at most once) — the
renderable is still drawn. -/
def recordRenderables : List RenderObjectInfo → Bool →
    List RenderObjectInfo × Nat × Bool
  | [], warned => ([], 0, warned)
  | r :: rest, warned =>
      if handlesComplete r then
        let warnHere := materialSetAbsent r && !warned
        let next := recordRenderables rest (warned || materialSetAbsent r)
        (r :: next.1, (if warnHere then 1 else 0) + next.2.1, next.2.2)
      else
        recordRenderables rest warned

/-- Embeds `Renderer::RecordCommands` around the renderable loop: the only
throwing path is `GetCurrentCommandBuffer`'s bounds check
(src/graphics/Renderer.cpp:346-351); `AssetManager::GetMaterial` returns
the default material rather than throwing on a bad handle. -/
def RecordCommands (currentFrameIndex commandBufferCount : Nat)
    (renderables : List RenderObjectInfo) (warnedOnce : Bool) :
    Except String (List RenderObjectInfo × Nat × Bool) :=
  if commandBufferCount ≤ currentFrameIndex then
    Except.error "Attempted to get command buffer with invalid frame index!"
  else
    Except.ok (recordRenderables renderables warnedOnce)

/-- Closed form of the renderable loop: the drawn list is exactly the
renderables whose handles are all non-null, the warning fires at most
once (exactly once on a first call that meets an absent material set),
and the once-flag records whether an absent material set was met. -/
theorem recordRenderables_spec (rs : List RenderObjectInfo) (warned : Bool) :
    recordRenderables rs warned =
      (rs.filter handlesComplete,
       if warned then 0
       else if (rs.filter handlesComplete).any materialSetAbsent then 1 else 0,
       warned || (rs.filter handlesComplete).any materialSetAbsent) := by
  induction rs generalizing warned with
  | nil => simp [recordRenderables]
  | cons r rest ih =>
      by_cases hc : handlesComplete r = true
      · simp only [recordRenderables, ih, hc, if_true, List.filter_cons,
          List.any_cons]
        cases warned <;> cases hma : materialSetAbsent r <;> simp [hma]
      · simp only [recordRenderables, ih, hc, if_false, List.filter_cons]
        simp [hc]

/-- C6: for every renderable list, `RecordCommands` in a well-formed
renderer state (frame index within the command-buffer range) completes
without throwing; every renderable with a null mesh, transform,
vertex-buffer or index-buffer handle is skipped; an absent material
descriptor set yields exactly one logged soft-binding warning for that
cause on the first offending renderable (and none when no offender
exists), without aborting the frame; and all surviving renderables are
still drawn, in order. -/
theorem recordCommands_soft_binding (currentFrameIndex commandBufferCount : Nat)
    (h : currentFrameIndex < commandBufferCount)
    (rs : List RenderObjectInfo) :
    RecordCommands currentFrameIndex commandBufferCount rs false =
      Except.ok (rs.filter handlesComplete,
        (if (rs.filter handlesComplete).any materialSetAbsent then 1 else 0),
        (rs.filter handlesComplete).any materialSetAbsent) := by
  unfold RecordCommands
  rw [if_neg (by omega), recordRenderables_spec]
  simp

/-- The three-renderable scenario list used as the C6 witness input: one
complete renderable with an absent material set, one with a null vertex
buffer, one fully valid. -/
def witnessRenderables : List RenderObjectInfo :=
  [{ mesh := some { hasVertexBuffer := true, hasIndexBuffer := true,
                    materialSetIsNull := true, indexCount := 6 },
     hasTransform := true },
   { mesh := some { hasVertexBuffer := false, hasIndexBuffer := true,
                    materialSetIsNull := false, indexCount := 9 },
     hasTransform := true },
   { mesh := some { hasVertexBuffer := true, hasIndexBuffer := true,
                    materialSetIsNull := false, indexCount := 12 },
     hasTransform := true }]

/-- Witness for C6 at frame slot 0 of 2 on `witnessRenderables`: no throw,
exactly one warning, both complete renderables drawn. -/
theorem recordCommands_soft_binding_witness :
    RecordCommands 0 2 witnessRenderables false =
      Except.ok (witnessRenderables.filter handlesComplete,
        (if (witnessRenderables.filter handlesComplete).any materialSetAbsent
         then 1 else 0),
        (witnessRenderables.filter handlesComplete).any materialSetAbsent) :=
  recordCommands_soft_binding 0 2 (by decide) witnessRenderables

/-! ### Swapchain construction and extent selection (src/graphics/Swapchain.cpp) -/

/-- Observable result of `Swapchain::Init`: sizes of the image and view
sets, and whether the stored format is still `VK_FORMAT_UNDEFINED`. -/
structure SwapchainInitResult where
  imageCount : Nat
  viewCount : Nat
  formatUndefined : Bool
deriving DecidableEq

/-- Embeds `Swapchain::Init` plus `CreateActualSwapchain` /
`RetrieveSwapchainImages` / `CreateSwapchainImageViews`
(src/graphics/Swapchain.cpp:32-82,141-175).  A null device or surface hits
the early guard, which throws precisely when the device is live and
otherwise returns silently with zero images; past the guard, an empty
format or present-mode list throws for a live surface (the silent branch
there is unreachable, kept faithful to the source); otherwise the platform
returns `platformImageCount` images and one view each. -/
def SwapchainInitModel (deviceIsNull surfaceIsNull : Bool)
    (formatCount presentModeCount platformImageCount : Nat) :
    Except String SwapchainInitResult :=
  if deviceIsNull ∨ surfaceIsNull then
    if ¬deviceIsNull then
      Except.error "Cannot initialize swapchain with null device or surface."
    else
      Except.ok { imageCount := 0, viewCount := 0, formatUndefined := true }
  else
    if formatCount = 0 ∨ presentModeCount = 0 then
      if ¬surfaceIsNull then
        Except.error
          "Device does not adequately support swapchains (no formats/present modes)."
      else
        Except.ok { imageCount := 0, viewCount := 0, formatUndefined := true }
    else
      Except.ok { imageCount := platformImageCount,
                  viewCount := platformImageCount, formatUndefined := false }

/-- C7 (counterexample): a surface-less construction on a LIVE device does
not complete without error — the guard in `Swapchain::Init` throws as
soon as the surface is null while the device is real, even with formats
and present modes available. -/
theorem swapchainInit_headless_live_device_throws :
    SwapchainInitModel false true 5 5 3 =
      Except.error "Cannot initialize swapchain with null device or surface." := by
  rfl

/-- C7 (amended): construction fails fatally exactly when the device is
live and either the surface is null or it reports zero formats or zero
present modes; a fully null (dummy/headless) context — null device —
completes without error with image and view sets of size zero; and a
fully live construction yields the platform's image count with one view
per image. -/
theorem swapchainInit_characterization (deviceIsNull surfaceIsNull : Bool)
    (formatCount presentModeCount platformImageCount : Nat) :
    ((SwapchainInitModel deviceIsNull surfaceIsNull formatCount
        presentModeCount platformImageCount).isOk = false ↔
      (deviceIsNull = false ∧ (surfaceIsNull = true ∨ formatCount = 0 ∨
        presentModeCount = 0))) ∧
    (deviceIsNull = true →
      SwapchainInitModel deviceIsNull surfaceIsNull formatCount
          presentModeCount platformImageCount =
        Except.ok { imageCount := 0, viewCount := 0, formatUndefined := true }) ∧
    (deviceIsNull = false → surfaceIsNull = false → 0 < formatCount →
      0 < presentModeCount →
      SwapchainInitModel deviceIsNull surfaceIsNull formatCount
          presentModeCount platformImageCount =
        Except.ok { imageCount := platformImageCount,
                    viewCount := platformImageCount,
                    formatUndefined := false }) := by
  unfold SwapchainInitModel
  cases deviceIsNull <;> cases surfaceIsNull <;>
    rcases formatCount with _ | f <;> rcases presentModeCount with _ | p <;>
    simp [Except.isOk, Except.toBool]

/-- Witness for C7's amended theorem: a null-context construction yields
zero images, and a live construction with 2 formats and 1 present mode
yields the platform's 3 images and views. -/
theorem swapchainInit_characterization_witness :
    SwapchainInitModel true true 0 0 7 =
      Except.ok { imageCount := 0, viewCount := 0, formatUndefined := true } ∧
    SwapchainInitModel false false 2 1 3 =
      Except.ok { imageCount := 3, viewCount := 3, formatUndefined := false } :=
  ⟨(swapchainInit_characterization true true 0 0 7).2.1 rfl,
   (swapchainInit_characterization false false 2 1 3).2.2 rfl rfl
     (by decide) (by decide)⟩

/-- A 2-D extent in pixels. -/
structure VkExtent2D where
  width : Nat
  height : Nat
deriving DecidableEq

/-- The surface-capability fields `ChooseSwapExtent` reads. -/
structure SurfaceCapabilities where
  currentExtent : VkExtent2D
  minImageExtent : VkExtent2D
  maxImageExtent : VkExtent2D
deriving DecidableEq

/-- The `std::numeric_limits<uint32_t>::max()` sentinel that marks an
unconstrained surface extent. -/
def uint32Sentinel : Nat := 2 ^ 32 - 1

/-- `std::clamp(v, lo, hi)`: `v < lo ? lo : hi < v ? hi : v`. -/
def stdClamp (v lo hi : Nat) : Nat :=
  if v < lo then lo else if hi < v then hi else v

/-- Embeds `Swapchain::ChooseSwapExtent`
(src/graphics/Swapchain.cpp:221-238): a fixed capability extent (width not
the sentinel) is returned unchanged; otherwise the requested size is
clamped per axis into `[minImageExtent, maxImageExtent]`. -/
def ChooseSwapExtent (cap : SurfaceCapabilities)
    (windowWidth windowHeight : Nat) : VkExtent2D :=
  if cap.currentExtent.width ≠ uint32Sentinel then
    cap.currentExtent
  else
    { width := stdClamp windowWidth cap.minImageExtent.width
                 cap.maxImageExtent.width,
      height := stdClamp windowHeight cap.minImageExtent.height
                 cap.maxImageExtent.height }

/-- `stdClamp` lands in `[lo, hi]` when `lo ≤ hi`, and is the identity on
values already in range. -/
theorem stdClamp_spec (v lo hi : Nat) (h : lo ≤ hi) :
    lo ≤ stdClamp v lo hi ∧ stdClamp v lo hi ≤ hi ∧
      (lo ≤ v → v ≤ hi → stdClamp v lo hi = v) := by
  unfold stdClamp
  rcases Nat.lt_or_ge v lo with hv | hv
  · simp [hv]
    omega
  · rw [if_neg (by omega)]
    rcases Nat.lt_or_ge hi v with hv2 | hv2
    · rw [if_pos hv2]
      omega
    · rw [if_neg (by omega)]
      omega

/-- C9: for every requested size, a capability dictating a fixed extent
(current-extent width differs from the sentinel) is returned unchanged;
an unconstrained capability returns the requested width and height each
clamped into the capability's min/max range — in range whenever the
bounds are ordered, and equal to the request when it already lies in
range. -/
theorem chooseSwapExtent_spec (cap : SurfaceCapabilities)
    (windowWidth windowHeight : Nat) :
    (cap.currentExtent.width ≠ uint32Sentinel →
      ChooseSwapExtent cap windowWidth windowHeight = cap.currentExtent) ∧
    (cap.currentExtent.width = uint32Sentinel →
      ChooseSwapExtent cap windowWidth windowHeight =
        { width := stdClamp windowWidth cap.minImageExtent.width
                     cap.maxImageExtent.width,
          height := stdClamp windowHeight cap.minImageExtent.height
                     cap.maxImageExtent.height } ∧
      (cap.minImageExtent.width ≤ cap.maxImageExtent.width →
        cap.minImageExtent.width ≤
            (ChooseSwapExtent cap windowWidth windowHeight).width ∧
          (ChooseSwapExtent cap windowWidth windowHeight).width ≤
            cap.maxImageExtent.width ∧
          (cap.minImageExtent.width ≤ windowWidth →
            windowWidth ≤ cap.maxImageExtent.width →
            (ChooseSwapExtent cap windowWidth windowHeight).width =
              windowWidth)) ∧
      (cap.minImageExtent.height ≤ cap.maxImageExtent.height →
        cap.minImageExtent.height ≤
            (ChooseSwapExtent cap windowWidth windowHeight).height ∧
          (ChooseSwapExtent cap windowWidth windowHeight).height ≤
            cap.maxImageExtent.height ∧
          (cap.minImageExtent.height ≤ windowHeight →
            windowHeight ≤ cap.maxImageExtent.height →
            (ChooseSwapExtent cap windowWidth windowHeight).height =
              windowHeight))) := by
  constructor
  · intro hfix
    unfold ChooseSwapExtent
    rw [if_pos hfix]
  · intro hsent
    have hfree : ChooseSwapExtent cap windowWidth windowHeight =
        { width := stdClamp windowWidth cap.minImageExtent.width
                     cap.maxImageExtent.width,
          height := stdClamp windowHeight cap.minImageExtent.height
                     cap.maxImageExtent.height } := by
      unfold ChooseSwapExtent
      rw [if_neg (by simp [hsent])]
    refine ⟨hfree, ?_, ?_⟩
    · intro hw
      obtain ⟨h1, h2, h3⟩ := stdClamp_spec windowWidth
        cap.minImageExtent.width cap.maxImageExtent.width hw
      rw [hfree]
      exact ⟨h1, h2, h3⟩
    · intro hh
      obtain ⟨h1, h2, h3⟩ := stdClamp_spec windowHeight
        cap.minImageExtent.height cap.maxImageExtent.height hh
      rw [hfree]
      exact ⟨h1, h2, h3⟩

/-- Witness for C9: a fixed 800×600 capability extent is returned for a
1024×768 request, and an unconstrained capability clamps a 5000-wide
request down to the 1920×1080 maximum. -/
theorem chooseSwapExtent_spec_witness :
    ChooseSwapExtent
        { currentExtent := { width := 800, height := 600 },
          minImageExtent := { width := 1, height := 1 },
          maxImageExtent := { width := 4096, height := 4096 } } 1024 768 =
      { width := 800, height := 600 } ∧
    ChooseSwapExtent
        { currentExtent := { width := uint32Sentinel, height := 0 },
          minImageExtent := { width := 640, height := 480 },
          maxImageExtent := { width := 1920, height := 1080 } } 5000 720 =
      { width := stdClamp 5000 640 1920, height := stdClamp 720 480 1080 } :=
  ⟨(chooseSwapExtent_spec
      { currentExtent := { width := 800, height := 600 },
        minImageExtent := { width := 1, height := 1 },
        maxImageExtent := { width := 4096, height := 4096 } } 1024 768).1
      (by decide),
   ((chooseSwapExtent_spec
      { currentExtent := { width := uint32Sentinel, height := 0 },
        minImageExtent := { width := 640, height := 480 },
        maxImageExtent := { width := 1920, height := 1080 } } 5000 720).2
      rfl).1⟩

end VulkEng
